import Mathlib

/-!
Shallow embedding of the native audio core of music-sheet-flow
(src/app/src/main/cpp): the capture-side pitch-tracking engine
(audio_engine.cpp, pitch_detector.cpp) and the render-side synthesis
engine (midi_engine.cpp).  Machine floats are modelled as real numbers,
sample buffers as lists of reals; external collaborators (the aubio
frequency estimator, the opaque TinySoundFont synthesizer state, the
oboe stream-open outcomes, the monotonic clock and the mutex try-lock
outcome) are passed in as explicit parameters, following the spec which
treats them as opaque.
-/

namespace MusicSheetFlow

/-- Buffer size for pitch detection, audio_engine.cpp line 17
(PITCH_BUFFER_SIZE, the ANALYSIS_SIZE of the spec). -/
def PITCH_BUFFER_SIZE : Nat := 2048

/-- Hop between successive analysis windows: audio_engine.cpp line 161
erases PITCH_BUFFER_SIZE / 2 samples after each analysed window. -/
def HOP : Nat := PITCH_BUFFER_SIZE / 2

/-- PitchResult from pitch_detector.h lines 7-12. -/
structure PitchResult where
  frequency : ℝ
  confidence : ℝ
  midiNote : ℤ
  centDeviation : ℤ

/-- The sentinel result constructed at pitch_detector.cpp line 56:
PitchResult result = \x7b0.0f, 0.0f, -1, 0\x7d. -/
def noPitchResult : PitchResult := ⟨0, 0, -1, 0⟩

/-- PitchDetectorImpl state: pitch_detector.cpp lines 102-105
(the aubio-internal objects are kept outside, as the abstract
estimator state threaded through detect). -/
structure PitchDetectorState where
  sampleRate : ℤ
  bufferSize : Nat
  confidenceThreshold : ℝ
  silenceThresholdDb : ℝ

/-- Constructor PitchDetectorImpl(sampleRate, bufferSize),
pitch_detector.cpp lines 16-30, with the field defaults of lines
104-105 (confidence 0.3, silence -50 dB). -/
noncomputable def createPitchDetector (sampleRate : ℤ) (bufferSize : Nat) :
    PitchDetectorState :=
  { sampleRate := sampleRate
    bufferSize := bufferSize
    confidenceThreshold := 0.3
    silenceThresholdDb := -50 }

/-- setConfidenceThreshold, pitch_detector.cpp lines 32-35. -/
def pdSetConfidenceThreshold (d : PitchDetectorState) (t : ℝ) :
    PitchDetectorState :=
  { d with confidenceThreshold := t }

/-- setSilenceThreshold, pitch_detector.cpp lines 37-45 (the forward to
aubio_pitch_set_silence configures the external estimator). -/
def pdSetSilenceThreshold (d : PitchDetectorState) (t : ℝ) :
    PitchDetectorState :=
  { d with silenceThresholdDb := t }

/-- frequencyToMidi, pitch_detector.cpp lines 90-93:
round(69 + 12 * log2(freq / 440)). -/
noncomputable def frequencyToMidi (freq : ℝ) : ℤ :=
  round (69 + 12 * Real.logb 2 (freq / 440))

/-- calculateCentDeviation, pitch_detector.cpp lines 95-100:
round(1200 * log2(freq / (440 * 2 ^ ((midiNote - 69) / 12)))). -/
noncomputable def calculateCentDeviation (freq : ℝ) (midiNote : ℤ) : ℤ :=
  round (1200 * Real.logb 2 (freq / (440 * (2 : ℝ) ^ (((midiNote : ℝ) - 69) / 12))))

/-- PitchDetectorImpl::detect, pitch_detector.cpp lines 55-87 (the
HAVE_AUBIO build).  The aubio pitch object is the external frequency
estimator: it is modelled as a state-passing function from its abstract
internal state and the sample window to (frequency, confidence) and the
successor state.  The early size-mismatch return (line 59-61) happens
before any call into aubio, so the estimator state is returned
untouched on that path. -/
noncomputable def detect {σ : Type} (estimate : σ → List ℝ → (ℝ × ℝ) × σ)
    (d : PitchDetectorState) (es : σ) (samples : List ℝ) (numSamples : Nat) :
    PitchResult × σ :=
  if numSamples ≠ d.bufferSize then
    (noPitchResult, es)
  else
    let r := estimate es samples
    let freq := r.1.1
    let confidence := r.1.2
    if 20 < freq ∧ d.confidenceThreshold < confidence then
      ({ frequency := freq
         confidence := confidence
         midiNote := frequencyToMidi freq
         centDeviation := calculateCentDeviation freq (frequencyToMidi freq) },
       r.2)
    else
      (noPitchResult, r.2)

/-- Modelled from the spec: the per-channel synth voice state held by
the opaque TinySoundFont object (third_party/tsf.h is a vendored
external collaborator, not part of the core sources).  Spec section 3:
per MIDI channel an active preset id, bank id, volume, and the set of
currently sounding notes; plus the output sample rate and global volume
that midi_engine.cpp configures through tsf_set_output / tsf_set_volume.
The fontId field identifies which soundfont data the object was loaded
from. -/
structure TsfState where
  fontId : Nat
  outputSampleRate : ℤ
  globalVolume : ℚ
  channelPresets : List (Nat × Nat × Nat)
  channelVolumes : List (Nat × ℚ)
  activeNotes : List (Nat × Nat × ℚ)
deriving DecidableEq

/-- Modelled from the spec: assoc-list update used by the per-channel
tsf setters (set the value for a channel key, dropping any previous
binding for that channel). -/
def setAssoc {α : Type} (l : List (Nat × α)) (k : Nat) (v : α) :
    List (Nat × α) :=
  (k, v) :: l.filter (fun p => p.1 ≠ k)

/-- Modelled from the spec: tsf_set_output(t, TSF_STEREO_INTERLEAVED,
rate, 0) configures the output sample rate of the synthesizer. -/
def tsfSetOutput (t : TsfState) (rate : ℤ) : TsfState :=
  { t with outputSampleRate := rate }

/-- Modelled from the spec: tsf_set_volume sets the global volume. -/
def tsfSetVolume (t : TsfState) (v : ℚ) : TsfState :=
  { t with globalVolume := v }

/-- Modelled from the spec: tsf_channel_set_presetnumber assigns
(preset, bank) to a channel. -/
def tsfChannelSetPresetnumber (t : TsfState) (channel preset bank : Nat) :
    TsfState :=
  { t with channelPresets := setAssoc t.channelPresets channel (preset, bank) }

/-- Modelled from the spec: tsf_channel_set_volume assigns a volume to a
channel. -/
def tsfChannelSetVolume (t : TsfState) (channel : Nat) (v : ℚ) : TsfState :=
  { t with channelVolumes := setAssoc t.channelVolumes channel v }

/-- Modelled from the spec: tsf_channel_note_on starts a voice for
(channel, note, velocity). -/
def tsfChannelNoteOn (t : TsfState) (channel note : Nat) (velocity : ℚ) :
    TsfState :=
  { t with activeNotes := (channel, note, velocity) :: t.activeNotes }

/-- Modelled from the spec: tsf_channel_note_off releases the voices of
(channel, note). -/
def tsfChannelNoteOff (t : TsfState) (channel note : Nat) : TsfState :=
  { t with activeNotes :=
      t.activeNotes.filter (fun p => ¬(p.1 = channel ∧ p.2.1 = note)) }

/-- Modelled from the spec: tsf_note_off_all releases every sounding
voice. -/
def tsfNoteOffAll (t : TsfState) : TsfState :=
  { t with activeNotes := [] }

/-- MidiEngineImpl state: midi_engine.cpp lines 219-224.  The stream
handle is modelled by whether a stream is open; the mutex itself lives
outside the state (the try-lock outcome of the render callback is an
input). -/
structure MidiEngineState where
  tsf : Option TsfState
  streamOpen : Bool
  sampleRate : ℤ
  volume : ℚ
deriving DecidableEq

/-- Initial MidiEngineImpl field values, midi_engine.cpp lines 220-224. -/
def initMidiEngineState : MidiEngineState :=
  { tsf := none, streamOpen := false, sampleRate := 44100, volume := 4/5 }

/-- MidiEngineImpl::loadSoundFont, midi_engine.cpp lines 31-60.  The
outcome of tsf_load_filename on the given path is the external sound
bank loader; it is passed in as parse (none when the source cannot be
parsed).  The previously loaded bank is closed before the load is
attempted (lines 34-37); on parse failure the function returns false
with no bank loaded; on success the new bank is configured: stereo
output at the engine sample rate, global volume 1, channel 0 preset
(0, 0) with volume 1, channel 9 preset (0, 1) with volume 1. -/
def loadSoundFont (parse : Option TsfState) (s : MidiEngineState) :
    Bool × MidiEngineState :=
  let s1 := { s with tsf := none }
  match parse with
  | none => (false, s1)
  | some t =>
    let t1 := tsfSetOutput t s.sampleRate
    let t2 := tsfSetVolume t1 1
    let t3 := tsfChannelSetPresetnumber t2 0 0 0
    let t4 := tsfChannelSetVolume t3 0 1
    let t5 := tsfChannelSetPresetnumber t4 9 0 1
    let t6 := tsfChannelSetVolume t5 9 1
    (true, { s1 with tsf := some t6 })

/-- MidiEngineImpl::isLoaded, midi_engine.cpp lines 82-84. -/
def midiIsLoaded (s : MidiEngineState) : Bool :=
  s.tsf.isSome

/-- MidiEngineImpl::noteOnChannel, midi_engine.cpp lines 94-99. -/
def midiNoteOnChannel (s : MidiEngineState) (channel note : Nat)
    (velocity : ℚ) : MidiEngineState :=
  { s with tsf := s.tsf.map (fun t => tsfChannelNoteOn t channel note velocity) }

/-- MidiEngineImpl::noteOffChannel, midi_engine.cpp lines 101-106. -/
def midiNoteOffChannel (s : MidiEngineState) (channel note : Nat) :
    MidiEngineState :=
  { s with tsf := s.tsf.map (fun t => tsfChannelNoteOff t channel note) }

/-- MidiEngineImpl::allNotesOff, midi_engine.cpp lines 116-121. -/
def midiAllNotesOff (s : MidiEngineState) : MidiEngineState :=
  { s with tsf := s.tsf.map tsfNoteOffAll }

/-- MidiEngineImpl::setVolume, midi_engine.cpp lines 132-138. -/
def midiSetVolume (s : MidiEngineState) (v : ℚ) : MidiEngineState :=
  { s with volume := v, tsf := s.tsf.map (fun t => tsfSetVolume t v) }

/-- MidiEngineImpl::start, midi_engine.cpp lines 140-190.  The five
stream-open attempts of the retry loop (lines 148-172) are external
oboe outcomes, passed as a1 .. a5 (each carries the sample rate of the
opened stream on success); startOk is the outcome of requestStart
(line 182).  When a stream is already open the call returns true
immediately (lines 141-143).  After a successful open the engine
re-reads the sample rate and, when a bank is loaded, reconfigures its
output and resets its volume to 1 (lines 174-180).  When requestStart
fails the function returns false but the opened stream is not closed
(lines 183-186). -/
def midiStart (a1 a2 a3 a4 a5 : Option ℤ) (startOk : Bool)
    (s : MidiEngineState) : Bool × MidiEngineState :=
  if s.streamOpen then (true, s)
  else
    match a1 <|> a2 <|> a3 <|> a4 <|> a5 with
    | none => (false, s)
    | some rate =>
      let s1 := { s with
                  streamOpen := true
                  sampleRate := rate
                  tsf := s.tsf.map (fun t => tsfSetVolume (tsfSetOutput t rate) 1) }
      (startOk, s1)

/-- MidiEngineImpl::stop, midi_engine.cpp lines 192-199: close the
stream when one is open, then allNotesOff() unconditionally. -/
def midiStop (s : MidiEngineState) : MidiEngineState :=
  midiAllNotesOff { s with streamOpen := false }

/-- MidiEngineImpl::onAudioReady, midi_engine.cpp lines 201-217: the
render callback.  lockOwned is the outcome of the non-blocking
try_to_lock acquisition of the engine mutex (line 209); tsfRender is
the external tsf_render_float renderer producing the interleaved
stereo samples for a bank state and a frame count.  When the lock is
held and a bank is loaded the bank renders; otherwise the output
buffer is zeroed: memset(output, 0, numFrames * 2 * sizeof(float)). -/
def midiOnAudioReady (tsfRender : TsfState → Nat → List ℚ)
    (lockOwned : Bool) (s : MidiEngineState) (numFrames : Nat) : List ℚ :=
  match lockOwned, s.tsf with
  | true, some t => tsfRender t numFrames
  | true, none => List.replicate (numFrames * 2) 0
  | false, _ => List.replicate (numFrames * 2) 0

/-- PitchEvent from audio_engine.h lines 9-15. -/
structure PitchEvent where
  frequency : ℝ
  confidence : ℝ
  midiNote : ℤ
  centDeviation : ℤ
  timestampNs : ℤ

/-- Result of draining the sample window inside one capture callback:
the analysis windows reached by the processing loop (in order), the
pitch events emitted, the residual buffer, the estimator state after
the loop, and the number of clock reads performed so far. -/
structure DrainResult (σ : Type) where
  windows : List (List ℝ)
  events : List PitchEvent
  rest : List ℝ
  estState : σ
  eventCount : Nat

/-- Observable output of one or more capture callbacks: the analysis
windows reached and the pitch events emitted, in order. -/
structure IngestOut where
  windows : List (List ℝ)
  events : List PitchEvent

/-- AudioEngineImpl state: audio_engine.cpp lines 167-176.  The stream
handle is modelled by whether a stream is open, the pitch callback by
whether one is set (the callback target is the external event sink),
and the aubio-internal estimator state (owned by the pitch detector in
the source) is the abstract state estState threaded through detect. -/
structure AudioEngineState (σ : Type) where
  streamOpen : Bool
  detector : Option PitchDetectorState
  estState : σ
  buffer : List ℝ
  sampleRate : ℤ
  noiseGateThreshold : ℝ
  pendingConfidenceThreshold : ℝ
  pendingSilenceThreshold : ℝ
  callbackSet : Bool
  eventCount : Nat

/-- Initial AudioEngineImpl field values, audio_engine.cpp lines
168-175: no stream, no detector, empty buffer, sample rate 44100,
noise gate 0.005, pending confidence 0.3, pending silence -50 dB, no
callback. -/
noncomputable def initAudioEngineState : AudioEngineState Unit :=
  { streamOpen := false
    detector := none
    estState := ()
    buffer := []
    sampleRate := 44100
    noiseGateThreshold := 0.005
    pendingConfidenceThreshold := 0.3
    pendingSilenceThreshold := -50
    callbackSet := false
    eventCount := 0 }

/-- AudioEngineImpl::setConfidenceThreshold, audio_engine.cpp lines
105-110: forward to the detector when one exists, and always record
the pending value. -/
def audioSetConfidenceThreshold {σ : Type} (s : AudioEngineState σ)
    (t : ℝ) : AudioEngineState σ :=
  { s with
    detector := s.detector.map (fun d => pdSetConfidenceThreshold d t)
    pendingConfidenceThreshold := t }

/-- AudioEngineImpl::setSilenceThreshold, audio_engine.cpp lines
112-117. -/
def audioSetSilenceThreshold {σ : Type} (s : AudioEngineState σ)
    (t : ℝ) : AudioEngineState σ :=
  { s with
    detector := s.detector.map (fun d => pdSetSilenceThreshold d t)
    pendingSilenceThreshold := t }

/-- AudioEngineImpl::setNoiseGateThreshold, audio_engine.cpp lines
96-99: store the linear amplitude 10 ^ (dB / 20). -/
noncomputable def audioSetNoiseGateThreshold {σ : Type}
    (s : AudioEngineState σ) (thresholdDb : ℝ) : AudioEngineState σ :=
  { s with noiseGateThreshold := (10 : ℝ) ^ (thresholdDb / 20) }

/-- AudioEngineImpl::setPitchCallback, audio_engine.cpp lines 101-103. -/
def audioSetPitchCallback {σ : Type} (s : AudioEngineState σ) :
    AudioEngineState σ :=
  { s with callbackSet := true }

/-- AudioEngineImpl::start, audio_engine.cpp lines 27-84.  The two
stream-open attempts of the fallback ladder (exclusive low-latency,
then shared standard-latency, lines 45-57) are external oboe outcomes
open1 and open2, each carrying the sample rate of the opened stream on
success; startOk is the outcome of requestStart (line 74).  When a
stream is already open the call returns true immediately (lines
28-31).  On open success the engine re-reads the sample rate, creates
the pitch detector for that rate and PITCH_BUFFER_SIZE, and applies
the pending thresholds to it (lines 59-69).  When requestStart fails
the stream is closed and the call returns false, but the freshly
created detector is kept (lines 74-80). -/
noncomputable def audioStart {σ : Type} (open1 open2 : Option ℤ)
    (startOk : Bool) (s : AudioEngineState σ) :
    Bool × AudioEngineState σ :=
  if s.streamOpen then (true, s)
  else
    match open1 <|> open2 with
    | none => (false, s)
    | some rate =>
      let d0 := createPitchDetector rate PITCH_BUFFER_SIZE
      let d1 := pdSetConfidenceThreshold d0 s.pendingConfidenceThreshold
      let d2 := pdSetSilenceThreshold d1 s.pendingSilenceThreshold
      let s1 := { s with
                  streamOpen := true
                  sampleRate := rate
                  detector := some d2 }
      if startOk then (true, s1)
      else (false, { s1 with streamOpen := false })

/-- AudioEngineImpl::stop, audio_engine.cpp lines 86-94: close the
stream when one is open, destroy the detector, clear the sample
buffer; all unconditionally. -/
def audioStop {σ : Type} (s : AudioEngineState σ) : AudioEngineState σ :=
  { s with streamOpen := false, detector := none, buffer := [] }

/-- The while-loop of AudioEngineImpl::onAudioReady, audio_engine.cpp
lines 132-162.  While the buffer holds at least PITCH_BUFFER_SIZE
samples: compute the RMS of the first PITCH_BUFFER_SIZE samples (lines
134-138); when the RMS reaches the noise gate and a detector and a
callback exist, run detect on the window and, when the result carries
a MIDI note (midiNote >= 0), emit a PitchEvent stamped with the next
monotonic clock read (lines 141-157); in every case erase the first
HOP samples and continue (line 161).  The clock is the external
monotonic clock, read once per emitted event; k counts the reads so
far. -/
noncomputable def drainLoop {σ : Type}
    (estimate : σ → List ℝ → (ℝ × ℝ) × σ) (clock : Nat → ℤ)
    (gate : ℝ) (det : Option PitchDetectorState) (cb : Bool)
    (buffer : List ℝ) (es : σ) (k : Nat) : DrainResult σ :=
  if hlen : PITCH_BUFFER_SIZE ≤ buffer.length then
    let w := buffer.take PITCH_BUFFER_SIZE
    let rms := Real.sqrt (((w.map (fun x => x * x)).sum) / (PITCH_BUFFER_SIZE : ℝ))
    let step : List PitchEvent × σ × Nat :=
      if gate ≤ rms then
        match det with
        | some d =>
          if cb then
            let r := detect estimate d es w PITCH_BUFFER_SIZE
            if 0 ≤ r.1.midiNote then
              ([{ frequency := r.1.frequency
                  confidence := r.1.confidence
                  midiNote := r.1.midiNote
                  centDeviation := r.1.centDeviation
                  timestampNs := clock k }], r.2, k + 1)
            else ([], r.2, k)
          else ([], es, k)
        | none => ([], es, k)
      else ([], es, k)
    let r := drainLoop estimate clock gate det cb (buffer.drop HOP) step.2.1 step.2.2
    { windows := w :: r.windows
      events := step.1 ++ r.events
      rest := r.rest
      estState := r.estState
      eventCount := r.eventCount }
  else
    { windows := [], events := [], rest := buffer, estState := es, eventCount := k }
termination_by buffer.length
decreasing_by
  simp only [List.length_drop]
  have hp : PITCH_BUFFER_SIZE = 2048 := rfl
  have hh : HOP = 1024 := rfl
  omega

/-- AudioEngineImpl::onAudioReady, audio_engine.cpp lines 119-165: one
capture callback.  Append the incoming chunk to the sample buffer
(lines 127-129), then drain it window by window.  Returns the updated
engine state and the observable output of the call. -/
noncomputable def onAudioReadyCapture {σ : Type}
    (estimate : σ → List ℝ → (ℝ × ℝ) × σ) (clock : Nat → ℤ)
    (s : AudioEngineState σ) (chunk : List ℝ) :
    AudioEngineState σ × IngestOut :=
  let r := drainLoop estimate clock s.noiseGateThreshold s.detector
      s.callbackSet (s.buffer ++ chunk) s.estState s.eventCount
  ({ s with buffer := r.rest, estState := r.estState, eventCount := r.eventCount },
   { windows := r.windows, events := r.events })

/-- Feeding a sequence of chunks to the capture callback one at a time,
accumulating the observable outputs in order. -/
noncomputable def ingestAll {σ : Type}
    (estimate : σ → List ℝ → (ℝ × ℝ) × σ) (clock : Nat → ℤ)
    (s : AudioEngineState σ) : List (List ℝ) → AudioEngineState σ × IngestOut
  | [] => (s, { windows := [], events := [] })
  | c :: cs =>
    let r1 := onAudioReadyCapture estimate clock s c
    let r2 := ingestAll estimate clock r1.1 cs
    (r2.1, { windows := r1.2.windows ++ r2.2.windows
             events := r1.2.events ++ r2.2.events })

/-- Concrete midi engine state with a bank loaded, some presets and one
sounding note (used as a counterexample state below). -/
def midiStateWithBank : MidiEngineState :=
  { tsf := some
      { fontId := 7
        outputSampleRate := 44100
        globalVolume := 1
        channelPresets := [(0, 0, 0), (9, 0, 1)]
        channelVolumes := [(0, 1), (9, 1)]
        activeNotes := [(0, 60, 4/5)] }
    streamOpen := true
    sampleRate := 44100
    volume := 4/5 }

/-! Unfolding lemmas and claim theorems. -/

/-- One-step unfolding of drainLoop in the draining case. -/
theorem drainLoop_step {σ : Type}
    (estimate : σ → List ℝ → (ℝ × ℝ) × σ) (clock : Nat → ℤ)
    (gate : ℝ) (det : Option PitchDetectorState) (cb : Bool)
    (buffer : List ℝ) (es : σ) (k : Nat)
    (hlen : PITCH_BUFFER_SIZE ≤ buffer.length) :
    drainLoop estimate clock gate det cb buffer es k =
      (let w := buffer.take PITCH_BUFFER_SIZE
       let rms := Real.sqrt (((w.map (fun x => x * x)).sum) / (PITCH_BUFFER_SIZE : ℝ))
       let step : List PitchEvent × σ × Nat :=
         if gate ≤ rms then
           match det with
           | some d =>
             if cb then
               let r := detect estimate d es w PITCH_BUFFER_SIZE
               if 0 ≤ r.1.midiNote then
                 ([{ frequency := r.1.frequency
                     confidence := r.1.confidence
                     midiNote := r.1.midiNote
                     centDeviation := r.1.centDeviation
                     timestampNs := clock k }], r.2, k + 1)
               else ([], r.2, k)
             else ([], es, k)
           | none => ([], es, k)
         else ([], es, k)
       let r := drainLoop estimate clock gate det cb (buffer.drop HOP) step.2.1 step.2.2
       { windows := w :: r.windows
         events := step.1 ++ r.events
         rest := r.rest
         estState := r.estState
         eventCount := r.eventCount }) := by
  rw [drainLoop]
  simp only [hlen, dite_true, dif_pos]

/-- Unfolding of drainLoop when the buffer holds fewer than
PITCH_BUFFER_SIZE samples. -/
theorem drainLoop_base {σ : Type}
    (estimate : σ → List ℝ → (ℝ × ℝ) × σ) (clock : Nat → ℤ)
    (gate : ℝ) (det : Option PitchDetectorState) (cb : Bool)
    (buffer : List ℝ) (es : σ) (k : Nat)
    (hlen : ¬ PITCH_BUFFER_SIZE ≤ buffer.length) :
    drainLoop estimate clock gate det cb buffer es k =
      { windows := [], events := [], rest := buffer, estState := es, eventCount := k } := by
  rw [drainLoop]
  simp only [hlen, dite_false, dif_neg, not_false_eq_true]

/-- C1: for every requested frame count n, if the render callback cannot
acquire the engine mutex without blocking or no soundfont bank is
loaded, onAudioReady writes exactly n frames (2 * n interleaved stereo
samples) of zeros; and in every call the output buffer of n frames is
fully written (2 * n samples), given that the external tsf renderer
writes exactly 2 * n samples as the spec states. -/
theorem render_silence_on_contention_or_no_bank
    (tsfRender : TsfState → Nat → List ℚ)
    (hr : ∀ t n, (tsfRender t n).length = 2 * n)
    (lockOwned : Bool) (s : MidiEngineState) (n : Nat) :
    ((lockOwned = false ∨ s.tsf = none) →
      midiOnAudioReady tsfRender lockOwned s n = List.replicate (2 * n) 0)
    ∧ (midiOnAudioReady tsfRender lockOwned s n).length = 2 * n := by
  constructor
  · intro h
    cases lockOwned with
    | false =>
      rcases htsf : s.tsf with _ | t <;>
        simp [midiOnAudioReady, htsf, Nat.mul_comm]
    | true =>
      rcases h with h | h
      · exact absurd h (by simp)
      · simp [midiOnAudioReady, h, Nat.mul_comm]
  · cases lockOwned <;> rcases htsf : s.tsf with _ | t <;>
      simp [midiOnAudioReady, htsf, hr, Nat.mul_comm]

/-- Witness for C1 at a concrete renderer, lock outcome and state. -/
theorem render_silence_on_contention_or_no_bank_witness :
    (∀ t n, ((fun (_ : TsfState) (m : Nat) => List.replicate (2 * m) (0 : ℚ)) t n).length = 2 * n)
    ∧ (((false = false ∨ initMidiEngineState.tsf = none) →
        midiOnAudioReady (fun _ m => List.replicate (2 * m) 0) false initMidiEngineState 3 =
          List.replicate (2 * 3) 0)
      ∧ (midiOnAudioReady (fun _ m => List.replicate (2 * m) 0) false initMidiEngineState 3).length = 2 * 3) :=
  ⟨fun _ n => by simp,
   render_silence_on_contention_or_no_bank _ (fun _ n => by simp) false initMidiEngineState 3⟩

/-- The pitch of the note four octaves above concert A maps to MIDI
number 129: round(69 + 12 * log2(14080 / 440)) = 69 + 12 * 5. -/
theorem frequencyToMidi_14080 : frequencyToMidi 14080 = 129 := by
  unfold frequencyToMidi
  have h1 : (14080 : ℝ) / 440 = 32 := by norm_num
  have h2 : Real.logb 2 32 = 5 := by
    have h3 : (32 : ℝ) = 2 ^ (5 : ℕ) := by norm_num
    rw [h3, Real.logb_pow, Real.logb_self_eq_one (by norm_num)]
    norm_num
  rw [h1, h2]
  have h4 : (69 + 12 * 5 : ℝ) = ((129 : ℤ) : ℝ) := by norm_num
  rw [h4, round_intCast]

/-- C2 (code bug evidence): a frequency the detector accepts for mapping
(14080 Hz, above the 20 Hz floor, with confidence 0.9 above the default
0.3 threshold) is placed in the emitted result with midiNote 129, which
is outside [0, 127] and is not the sentinel -1: frequencyToMidi performs
no clamping and detect performs no range validation, contradicting the
header documentation (pitch_detector.h line 10: midiNote 0-127, -1 if
no pitch). -/
theorem detect_note_out_of_range :
    ((detect (fun (es : Unit) (_ : List ℝ) => ((14080, 0.9), es))
        (createPitchDetector 44100 2048) () (List.replicate 2048 0) 2048).1.midiNote = 129)
    ∧ ¬(0 ≤ (129 : ℤ) ∧ (129 : ℤ) ≤ 127) ∧ (129 : ℤ) ≠ -1 := by
  refine ⟨?_, by decide, by decide⟩
  have hbuf : (createPitchDetector 44100 2048).bufferSize = 2048 := rfl
  have hconf : (createPitchDetector 44100 2048).confidenceThreshold = 0.3 := rfl
  unfold detect
  rw [if_neg (by simp [hbuf])]
  rw [if_pos (by refine ⟨by norm_num, ?_⟩; rw [hconf]; norm_num)]
  exact frequencyToMidi_14080

/-- C3 counterexample: loading an unparsable soundfont over a previously
loaded bank returns failure, but the previous bank is not preserved: the
engine is left with no bank loaded, because loadSoundFont closes the old
bank before attempting the parse (midi_engine.cpp lines 34-37). -/
theorem loadSoundFont_failure_loses_previous_bank :
    (loadSoundFont none midiStateWithBank).1 = false
    ∧ (loadSoundFont none midiStateWithBank).2.tsf = none
    ∧ ¬((loadSoundFont none midiStateWithBank).2.tsf = midiStateWithBank.tsf) := by
  decide

/-- C3 (amended): for every engine state, a load whose source cannot be
parsed returns failure synchronously and leaves the engine with no bank
loaded (the previously loaded bank, its presets and its voices are
discarded by the close that precedes the parse attempt); every other
engine field (stream handle, sample rate, volume setting) is unchanged. -/
theorem loadSoundFont_failure_unloads (s : MidiEngineState) :
    loadSoundFont none s = (false, { s with tsf := none }) := rfl

/-- C10: for every call of detect with a sample count different from the
buffer size the detector was constructed with, no analysis happens: the
result is the sentinel (frequency 0, confidence 0, midiNote -1,
centDeviation 0) and the estimator state is returned untouched. -/
theorem detect_size_mismatch {σ : Type}
    (estimate : σ → List ℝ → (ℝ × ℝ) × σ) (d : PitchDetectorState)
    (es : σ) (samples : List ℝ) (numSamples : Nat)
    (h : numSamples ≠ d.bufferSize) :
    detect estimate d es samples numSamples = (noPitchResult, es) := by
  unfold detect
  rw [if_pos h]

/-- Witness for C10 at a concrete estimator, detector and size. -/
theorem detect_size_mismatch_witness :
    (7 ≠ (createPitchDetector 44100 2048).bufferSize)
    ∧ detect (fun (es : Unit) (_ : List ℝ) => ((0, 0), es))
        (createPitchDetector 44100 2048) () [] 7 = (noPitchResult, ()) :=
  ⟨by decide,
   detect_size_mismatch (fun (es : Unit) (_ : List ℝ) => ((0, 0), es))
     (createPitchDetector 44100 2048) () [] 7 (by decide)⟩

/-- C9: for both engines and every state, stop is idempotent and tears
down unconditionally: a second stop leaves the same state as one stop;
after stop no stream handle is held, and the dependent state is cleared
(capture: detector destroyed and sample window emptied; synthesis: all
sounding notes released). -/
theorem stop_idempotent_and_clears {σ : Type} (s : AudioEngineState σ)
    (m : MidiEngineState) :
    audioStop (audioStop s) = audioStop s
    ∧ (audioStop s).streamOpen = false
    ∧ (audioStop s).detector = none
    ∧ (audioStop s).buffer = []
    ∧ midiStop (midiStop m) = midiStop m
    ∧ (midiStop m).streamOpen = false
    ∧ (midiStop m).tsf = m.tsf.map (fun t => { t with activeNotes := [] }) := by
  obtain ⟨tsf, so, sr, v⟩ := m
  refine ⟨rfl, rfl, rfl, rfl, ?_, rfl, ?_⟩ <;> cases tsf <;> rfl

/-- C7: for all threshold values c and si set before the detector exists
(engine not started, no detector), a subsequently successful start
constructs a detector configured with confidence threshold c and silence
threshold si (the pending values), not the defaults. -/
theorem pending_thresholds_applied_at_construction {σ : Type}
    (s : AudioEngineState σ) (c si : ℝ) (open1 open2 : Option ℤ)
    (startOk : Bool)
    (hstream : s.streamOpen = false) (hdet : s.detector = none)
    (hstart : (audioStart open1 open2 startOk
        (audioSetSilenceThreshold (audioSetConfidenceThreshold s c) si)).1 = true) :
    ∃ d, (audioStart open1 open2 startOk
        (audioSetSilenceThreshold (audioSetConfidenceThreshold s c) si)).2.detector = some d
      ∧ d.confidenceThreshold = c ∧ d.silenceThresholdDb = si := by
  unfold audioSetConfidenceThreshold audioSetSilenceThreshold at *
  unfold audioStart at *
  simp only [hstream, if_false, Bool.false_eq_true] at *
  rcases ho : open1 <|> open2 with _ | rate
  · rw [ho] at hstart
    simp at hstart
  · rw [ho] at hstart
    cases startOk with
    | false => simp at hstart
    | true =>
      refine ⟨_, rfl, rfl, rfl⟩

/-- Witness for C7: thresholds 0.7 and -40 set on a fresh engine before
a start that succeeds with an opened 48000 Hz stream. -/
theorem pending_thresholds_applied_at_construction_witness :
    initAudioEngineState.streamOpen = false
    ∧ initAudioEngineState.detector = none
    ∧ (audioStart (some 48000) none true
        (audioSetSilenceThreshold (audioSetConfidenceThreshold initAudioEngineState 0.7) (-40))).1 = true
    ∧ ∃ d, (audioStart (some 48000) none true
        (audioSetSilenceThreshold (audioSetConfidenceThreshold initAudioEngineState 0.7) (-40))).2.detector = some d
      ∧ d.confidenceThreshold = 0.7 ∧ d.silenceThresholdDb = -40 :=
  ⟨rfl, rfl, rfl,
   pending_thresholds_applied_at_construction initAudioEngineState 0.7 (-40)
     (some 48000) none true rfl rfl rfl⟩

/-- C8: for both engines, when a start succeeds, a second start without
an intervening stop returns success again and leaves the engine state
(and in particular the single open stream) completely unchanged. -/
theorem start_idempotent :
    (∀ {σ : Type} (open1 open2 : Option ℤ) (startOk : Bool)
        (s : AudioEngineState σ) (open1b open2b : Option ℤ) (startOkb : Bool),
      (audioStart open1 open2 startOk s).1 = true →
        (audioStart open1 open2 startOk s).2.streamOpen = true
        ∧ audioStart open1b open2b startOkb (audioStart open1 open2 startOk s).2 =
            (true, (audioStart open1 open2 startOk s).2))
    ∧ (∀ (a1 a2 a3 a4 a5 : Option ℤ) (startOk : Bool) (m : MidiEngineState)
        (b1 b2 b3 b4 b5 : Option ℤ) (startOkb : Bool),
      (midiStart a1 a2 a3 a4 a5 startOk m).1 = true →
        (midiStart a1 a2 a3 a4 a5 startOk m).2.streamOpen = true
        ∧ midiStart b1 b2 b3 b4 b5 startOkb (midiStart a1 a2 a3 a4 a5 startOk m).2 =
            (true, (midiStart a1 a2 a3 a4 a5 startOk m).2)) := by
  constructor
  · intro σ open1 open2 startOk s open1b open2b startOkb h
    unfold audioStart at *
    cases hso : s.streamOpen with
    | true =>
      simp only [hso, if_true] at *
      simp [hso]
    | false =>
      simp only [hso, Bool.false_eq_true, if_false] at *
      rcases ho : open1 <|> open2 with _ | rate
      · rw [ho] at h
        simp at h
      · rw [ho] at h
        cases startOk with
        | false => simp at h
        | true => simp
  · intro a1 a2 a3 a4 a5 startOk m b1 b2 b3 b4 b5 startOkb h
    unfold midiStart at *
    cases hso : m.streamOpen with
    | true =>
      simp only [hso, if_true] at *
      simp [hso]
    | false =>
      simp only [hso, Bool.false_eq_true, if_false] at *
      rcases ho : a1 <|> a2 <|> a3 <|> a4 <|> a5 with _ | rate
      · rw [ho] at h
        simp at h
      · rw [ho] at h
        cases startOk with
        | false => simp at h
        | true => simp

/-- Witness for C8: a fresh capture engine started with a successful
open at 48000 Hz, and a fresh synthesis engine whose first open attempt
succeeds at 44100 Hz. -/
theorem start_idempotent_witness :
    ((audioStart (some 48000) none true initAudioEngineState).1 = true
      ∧ ((audioStart (some 48000) none true initAudioEngineState).2.streamOpen = true
        ∧ audioStart none none false (audioStart (some 48000) none true initAudioEngineState).2 =
            (true, (audioStart (some 48000) none true initAudioEngineState).2)))
    ∧ ((midiStart (some 44100) none none none none true initMidiEngineState).1 = true
      ∧ ((midiStart (some 44100) none none none none true initMidiEngineState).2.streamOpen = true
        ∧ midiStart none none none none none false
            (midiStart (some 44100) none none none none true initMidiEngineState).2 =
            (true, (midiStart (some 44100) none none none none true initMidiEngineState).2))) :=
  ⟨⟨rfl, start_idempotent.1 (some 48000) none true initAudioEngineState none none false rfl⟩,
   ⟨rfl, start_idempotent.2 (some 44100) none none none none true initMidiEngineState
      none none none none none false rfl⟩⟩

/-- C4: for every analysis window whose RMS energy over the first
PITCH_BUFFER_SIZE samples is below the configured linear noise-gate
threshold, processing that window emits no pitch event, touches neither
the estimator state nor the clock, and still performs the hop (the
first HOP samples are discarded and the loop continues), so
accumulation never stalls. -/
theorem gated_window_emits_nothing {σ : Type}
    (estimate : σ → List ℝ → (ℝ × ℝ) × σ) (clock : Nat → ℤ)
    (gate : ℝ) (det : Option PitchDetectorState) (cb : Bool)
    (buffer : List ℝ) (es : σ) (k : Nat)
    (hlen : PITCH_BUFFER_SIZE ≤ buffer.length)
    (hrms : Real.sqrt
        (((buffer.take PITCH_BUFFER_SIZE).map (fun x => x * x)).sum / (PITCH_BUFFER_SIZE : ℝ)) < gate) :
    drainLoop estimate clock gate det cb buffer es k =
      (let r := drainLoop estimate clock gate det cb (buffer.drop HOP) es k
       { windows := buffer.take PITCH_BUFFER_SIZE :: r.windows
         events := r.events
         rest := r.rest
         estState := r.estState
         eventCount := r.eventCount }) := by
  rw [drainLoop_step estimate clock gate det cb buffer es k hlen]
  have hng := not_le.mpr hrms
  simp only [hng, if_false, ite_false]
  simp

/-- Witness for C4: an all-zero window of PITCH_BUFFER_SIZE samples has
RMS 0, below the default 0.005 gate. -/
theorem gated_window_emits_nothing_witness :
    (PITCH_BUFFER_SIZE ≤ (List.replicate PITCH_BUFFER_SIZE (0 : ℝ)).length)
    ∧ (Real.sqrt
        ((((List.replicate PITCH_BUFFER_SIZE (0 : ℝ)).take PITCH_BUFFER_SIZE).map (fun x => x * x)).sum
          / (PITCH_BUFFER_SIZE : ℝ)) < (0.005 : ℝ))
    ∧ drainLoop (fun (es : Unit) (_ : List ℝ) => ((0, 0), es)) (fun _ => 0)
        (0.005 : ℝ) none false (List.replicate PITCH_BUFFER_SIZE (0 : ℝ)) () 0 =
      (let r := drainLoop (fun (es : Unit) (_ : List ℝ) => ((0, 0), es)) (fun _ => 0)
          (0.005 : ℝ) none false ((List.replicate PITCH_BUFFER_SIZE (0 : ℝ)).drop HOP) () 0
       { windows := (List.replicate PITCH_BUFFER_SIZE (0 : ℝ)).take PITCH_BUFFER_SIZE :: r.windows
         events := r.events
         rest := r.rest
         estState := r.estState
         eventCount := r.eventCount }) := by
  have h1 : PITCH_BUFFER_SIZE ≤ (List.replicate PITCH_BUFFER_SIZE (0 : ℝ)).length := by
    simp
  have h2 : Real.sqrt
      ((((List.replicate PITCH_BUFFER_SIZE (0 : ℝ)).take PITCH_BUFFER_SIZE).map (fun x => x * x)).sum
        / (PITCH_BUFFER_SIZE : ℝ)) < (0.005 : ℝ) := by
    have hz : (((List.replicate PITCH_BUFFER_SIZE (0 : ℝ)).take PITCH_BUFFER_SIZE).map (fun x => x * x)).sum = 0 := by
      simp
    rw [hz, zero_div, Real.sqrt_zero]
    norm_num
  exact ⟨h1, h2,
    gated_window_emits_nothing (fun (es : Unit) (_ : List ℝ) => ((0, 0), es)) (fun _ => 0)
      (0.005 : ℝ) none false (List.replicate PITCH_BUFFER_SIZE (0 : ℝ)) () 0 h1 h2⟩

/-- Draining an appended buffer is draining the first part and then
draining its residue with the second part appended; the windows and
events concatenate in order. -/
theorem drainLoop_append {σ : Type}
    (estimate : σ → List ℝ → (ℝ × ℝ) × σ) (clock : Nat → ℤ)
    (gate : ℝ) (det : Option PitchDetectorState) (cb : Bool)
    (x b : List ℝ) (es : σ) (k : Nat) :
    drainLoop estimate clock gate det cb (x ++ b) es k =
      (let r1 := drainLoop estimate clock gate det cb x es k
       let r2 := drainLoop estimate clock gate det cb (r1.rest ++ b) r1.estState r1.eventCount
       { windows := r1.windows ++ r2.windows
         events := r1.events ++ r2.events
         rest := r2.rest
         estState := r2.estState
         eventCount := r2.eventCount }) := by
  have main : ∀ (n : Nat) (x : List ℝ) (es : σ) (k : Nat), x.length ≤ n →
      drainLoop estimate clock gate det cb (x ++ b) es k =
        (let r1 := drainLoop estimate clock gate det cb x es k
         let r2 := drainLoop estimate clock gate det cb (r1.rest ++ b) r1.estState r1.eventCount
         { windows := r1.windows ++ r2.windows
           events := r1.events ++ r2.events
           rest := r2.rest
           estState := r2.estState
           eventCount := r2.eventCount }) := by
    intro n
    induction n with
    | zero =>
      intro x es k hx
      have hsmall : ¬ PITCH_BUFFER_SIZE ≤ x.length := by
        have hp : PITCH_BUFFER_SIZE = 2048 := rfl
        omega
      rw [drainLoop_base estimate clock gate det cb x es k hsmall]
      simp
    | succ n ih =>
      intro x es k hx
      by_cases hbig : PITCH_BUFFER_SIZE ≤ x.length
      · have hxb : PITCH_BUFFER_SIZE ≤ (x ++ b).length := by
          rw [List.length_append]; omega
        rw [drainLoop_step estimate clock gate det cb (x ++ b) es k hxb,
            drainLoop_step estimate clock gate det cb x es k hbig]
        have hhople : HOP ≤ x.length := by
          have hp : PITCH_BUFFER_SIZE = 2048 := rfl
          have hh : HOP = 1024 := rfl
          omega
        rw [List.take_append_of_le_length hbig,
            List.drop_append_of_le_length hhople]
        have hdroplen : (x.drop HOP).length ≤ n := by
          rw [List.length_drop]
          have hp : PITCH_BUFFER_SIZE = 2048 := rfl
          have hh : HOP = 1024 := rfl
          omega
        have IH := fun (es2 : σ) (k2 : Nat) => ih (x.drop HOP) es2 k2 hdroplen
        simp only [IH]
        simp [List.append_assoc]
      · rw [drainLoop_base estimate clock gate det cb x es k hbig]
        simp
  exact main x.length x es k le_rfl

/-- The residual buffer left by the drain loop always holds fewer than
PITCH_BUFFER_SIZE samples (the loop runs until the window is below
capacity). -/
theorem drainLoop_rest_length_lt {σ : Type}
    (estimate : σ → List ℝ → (ℝ × ℝ) × σ) (clock : Nat → ℤ)
    (gate : ℝ) (det : Option PitchDetectorState) (cb : Bool)
    (buffer : List ℝ) (es : σ) (k : Nat) :
    (drainLoop estimate clock gate det cb buffer es k).rest.length < PITCH_BUFFER_SIZE := by
  have main : ∀ (n : Nat) (buffer : List ℝ) (es : σ) (k : Nat), buffer.length ≤ n →
      (drainLoop estimate clock gate det cb buffer es k).rest.length < PITCH_BUFFER_SIZE := by
    intro n
    induction n with
    | zero =>
      intro buffer es k hx
      have hsmall : ¬ PITCH_BUFFER_SIZE ≤ buffer.length := by
        have hp : PITCH_BUFFER_SIZE = 2048 := rfl
        omega
      rw [drainLoop_base estimate clock gate det cb buffer es k hsmall]
      show buffer.length < PITCH_BUFFER_SIZE
      have hp : PITCH_BUFFER_SIZE = 2048 := rfl
      omega
    | succ n ih =>
      intro buffer es k hx
      by_cases hbig : PITCH_BUFFER_SIZE ≤ buffer.length
      · rw [drainLoop_step estimate clock gate det cb buffer es k hbig]
        have hdroplen : (buffer.drop HOP).length ≤ n := by
          rw [List.length_drop]
          have hp : PITCH_BUFFER_SIZE = 2048 := rfl
          have hh : HOP = 1024 := rfl
          omega
        exact ih (buffer.drop HOP) _ _ hdroplen
      · rw [drainLoop_base estimate clock gate det cb buffer es k hbig]
        show buffer.length < PITCH_BUFFER_SIZE
        omega
  exact main buffer.length buffer es k le_rfl

/-- One capture callback on an appended chunk is the callback on the
first chunk followed by the callback on the second, with the observable
windows and events concatenated in order. -/
theorem onAudioReadyCapture_append {σ : Type}
    (estimate : σ → List ℝ → (ℝ × ℝ) × σ) (clock : Nat → ℤ)
    (s : AudioEngineState σ) (a b : List ℝ) :
    onAudioReadyCapture estimate clock s (a ++ b) =
      (let r1 := onAudioReadyCapture estimate clock s a
       let r2 := onAudioReadyCapture estimate clock r1.1 b
       (r2.1, { windows := r1.2.windows ++ r2.2.windows
                events := r1.2.events ++ r2.2.events })) := by
  unfold onAudioReadyCapture
  rw [← List.append_assoc]
  rw [drainLoop_append]

/-- C5: feeding any sequence of chunks to the capture callback one at a
time yields the same analysis windows (same sample content, same
order), the same pitch events and the same engine state (in particular
the same residual buffer) as feeding all samples as one contiguous
block; and ingesting chunk a then chunk b is ingesting a ++ b.  The
engine starts from a quiescent buffer (below window capacity), which is
how every reachable state between callbacks looks
(drainLoop_rest_length_lt) and how the engine starts (empty buffer). -/
theorem chunk_boundaries_invisible {σ : Type}
    (estimate : σ → List ℝ → (ℝ × ℝ) × σ) (clock : Nat → ℤ)
    (s : AudioEngineState σ)
    (hbuf : s.buffer.length < PITCH_BUFFER_SIZE) :
    (∀ chunks : List (List ℝ),
      ingestAll estimate clock s chunks =
        onAudioReadyCapture estimate clock s chunks.flatten)
    ∧ (∀ a b : List ℝ,
      ingestAll estimate clock s [a, b] =
        onAudioReadyCapture estimate clock s (a ++ b)) := by
  have main : ∀ (chunks : List (List ℝ)) (s : AudioEngineState σ),
      s.buffer.length < PITCH_BUFFER_SIZE →
      ingestAll estimate clock s chunks =
        onAudioReadyCapture estimate clock s chunks.flatten := by
    intro chunks
    induction chunks with
    | nil =>
      intro s hs
      have hbase := drainLoop_base estimate clock s.noiseGateThreshold s.detector
          s.callbackSet s.buffer s.estState s.eventCount (not_le.mpr hs)
      unfold onAudioReadyCapture ingestAll
      rw [List.flatten_nil, List.append_nil, hbase]
    | cons c cs ih =>
      intro s hs
      rw [List.flatten_cons, onAudioReadyCapture_append]
      have hrest : (onAudioReadyCapture estimate clock s c).1.buffer.length < PITCH_BUFFER_SIZE :=
        drainLoop_rest_length_lt estimate clock s.noiseGateThreshold s.detector
          s.callbackSet (s.buffer ++ c) s.estState s.eventCount
      simp only [ingestAll]
      rw [ih (onAudioReadyCapture estimate clock s c).1 hrest]
  refine ⟨fun chunks => main chunks s hbuf, fun a b => ?_⟩
  rw [main [a, b] s hbuf]
  simp

/-- Witness for C5 at a concrete engine state and chunk sequence. -/
theorem chunk_boundaries_invisible_witness :
    (initAudioEngineState.buffer.length < PITCH_BUFFER_SIZE)
    ∧ (∀ chunks : List (List ℝ),
        ingestAll (fun (es : Unit) (_ : List ℝ) => ((0, 0), es)) (fun _ => 0)
          initAudioEngineState chunks =
          onAudioReadyCapture (fun (es : Unit) (_ : List ℝ) => ((0, 0), es)) (fun _ => 0)
            initAudioEngineState chunks.flatten)
    ∧ (∀ a b : List ℝ,
        ingestAll (fun (es : Unit) (_ : List ℝ) => ((0, 0), es)) (fun _ => 0)
          initAudioEngineState [a, b] =
          onAudioReadyCapture (fun (es : Unit) (_ : List ℝ) => ((0, 0), es)) (fun _ => 0)
            initAudioEngineState (a ++ b)) := by
  have h1 : initAudioEngineState.buffer.length < PITCH_BUFFER_SIZE := by decide
  have h2 := chunk_boundaries_invisible
    (fun (es : Unit) (_ : List ℝ) => ((0, 0), es)) (fun _ => 0)
    initAudioEngineState h1
  exact ⟨h1, h2.1, h2.2⟩

/-- The trailing HOP samples of an analysis window are exactly the
leading HOP samples that survive the hop. -/
theorem window_overlap_identity (buffer : List ℝ) :
    (buffer.drop HOP).take HOP = (buffer.take PITCH_BUFFER_SIZE).drop HOP := by
  rw [List.drop_take]
  have hp : PITCH_BUFFER_SIZE = 2048 := rfl
  have hh : HOP = 1024 := rfl
  rw [hp, hh]

/-- Every analysis window reached by the drain loop holds exactly
PITCH_BUFFER_SIZE samples. -/
theorem drainLoop_windows_length {σ : Type}
    (estimate : σ → List ℝ → (ℝ × ℝ) × σ) (clock : Nat → ℤ)
    (gate : ℝ) (det : Option PitchDetectorState) (cb : Bool)
    (buffer : List ℝ) (es : σ) (k : Nat) :
    ∀ w ∈ (drainLoop estimate clock gate det cb buffer es k).windows,
      w.length = PITCH_BUFFER_SIZE := by
  have main : ∀ (n : Nat) (buffer : List ℝ) (es : σ) (k : Nat), buffer.length ≤ n →
      ∀ w ∈ (drainLoop estimate clock gate det cb buffer es k).windows,
        w.length = PITCH_BUFFER_SIZE := by
    intro n
    induction n with
    | zero =>
      intro buffer es k hx w hw
      have hsmall : ¬ PITCH_BUFFER_SIZE ≤ buffer.length := by
        have hp : PITCH_BUFFER_SIZE = 2048 := rfl
        omega
      rw [drainLoop_base estimate clock gate det cb buffer es k hsmall] at hw
      simp at hw
    | succ n ih =>
      intro buffer es k hx w hw
      by_cases hbig : PITCH_BUFFER_SIZE ≤ buffer.length
      · rw [drainLoop_step estimate clock gate det cb buffer es k hbig] at hw
        have hdroplen : (buffer.drop HOP).length ≤ n := by
          rw [List.length_drop]
          have hp : PITCH_BUFFER_SIZE = 2048 := rfl
          have hh : HOP = 1024 := rfl
          omega
        simp only [List.mem_cons] at hw
        rcases hw with hw | hw
        · subst hw
          rw [List.length_take]
          omega
        · exact ih (buffer.drop HOP) _ _ hdroplen w hw
      · rw [drainLoop_base estimate clock gate det cb buffer es k hbig] at hw
        simp at hw
  exact main buffer.length buffer es k le_rfl

/-- The first window reached by the drain loop, when there is one, is
the prefix of the buffer of length PITCH_BUFFER_SIZE. -/
theorem drainLoop_windows_head {σ : Type}
    (estimate : σ → List ℝ → (ℝ × ℝ) × σ) (clock : Nat → ℤ)
    (gate : ℝ) (det : Option PitchDetectorState) (cb : Bool)
    (buffer : List ℝ) (es : σ) (k : Nat) :
    ∀ w ∈ (drainLoop estimate clock gate det cb buffer es k).windows.head?,
      w = buffer.take PITCH_BUFFER_SIZE := by
  intro w hw
  by_cases hbig : PITCH_BUFFER_SIZE ≤ buffer.length
  · rw [drainLoop_step estimate clock gate det cb buffer es k hbig] at hw
    simp at hw
    exact hw.symm
  · rw [drainLoop_base estimate clock gate det cb buffer es k hbig] at hw
    simp at hw

/-- When the buffer holds a full window, the drain loop reaches at
least one window. -/
theorem drainLoop_windows_ne_nil {σ : Type}
    (estimate : σ → List ℝ → (ℝ × ℝ) × σ) (clock : Nat → ℤ)
    (gate : ℝ) (det : Option PitchDetectorState) (cb : Bool)
    (buffer : List ℝ) (es : σ) (k : Nat)
    (hbig : PITCH_BUFFER_SIZE ≤ buffer.length) :
    (drainLoop estimate clock gate det cb buffer es k).windows ≠ [] := by
  rw [drainLoop_step estimate clock gate det cb buffer es k hbig]
  simp

/-- Successive analysis windows overlap: each window starts with the
trailing HOP samples of its predecessor (after each hop exactly HOP
samples of the analysed window are retained). -/
theorem drainLoop_windows_chain {σ : Type}
    (estimate : σ → List ℝ → (ℝ × ℝ) × σ) (clock : Nat → ℤ)
    (gate : ℝ) (det : Option PitchDetectorState) (cb : Bool)
    (buffer : List ℝ) (es : σ) (k : Nat) :
    List.Chain' (fun w1 w2 => w2.take HOP = w1.drop HOP)
      (drainLoop estimate clock gate det cb buffer es k).windows := by
  have main : ∀ (n : Nat) (buffer : List ℝ) (es : σ) (k : Nat), buffer.length ≤ n →
      List.Chain' (fun w1 w2 => w2.take HOP = w1.drop HOP)
        (drainLoop estimate clock gate det cb buffer es k).windows := by
    intro n
    induction n with
    | zero =>
      intro buffer es k hx
      have hsmall : ¬ PITCH_BUFFER_SIZE ≤ buffer.length := by
        have hp : PITCH_BUFFER_SIZE = 2048 := rfl
        omega
      rw [drainLoop_base estimate clock gate det cb buffer es k hsmall]
      simp
    | succ n ih =>
      intro buffer es k hx
      by_cases hbig : PITCH_BUFFER_SIZE ≤ buffer.length
      · rw [drainLoop_step estimate clock gate det cb buffer es k hbig]
        have hdroplen : (buffer.drop HOP).length ≤ n := by
          rw [List.length_drop]
          have hp : PITCH_BUFFER_SIZE = 2048 := rfl
          have hh : HOP = 1024 := rfl
          omega
        refine List.chain'_cons'.mpr ⟨?_, ih (buffer.drop HOP) _ _ hdroplen⟩
        intro y hy
        have hhead := drainLoop_windows_head estimate clock gate det cb
          (buffer.drop HOP) _ _ y hy
        rw [hhead, ← window_overlap_identity buffer]
        rw [List.take_take]
        have hp : PITCH_BUFFER_SIZE = 2048 := rfl
        have hh : HOP = 1024 := rfl
        rw [hp, hh]
        norm_num
      · rw [drainLoop_base estimate clock gate det cb buffer es k hbig]
        simp
  exact main buffer.length buffer es k le_rfl

/-- Shape of one drain iteration: when the buffer holds a full window,
the result is the head window consed onto a recursive drain of the
hopped buffer, from some estimator state, clock count and emitted
event prefix. -/
theorem drainLoop_shape {σ : Type}
    (estimate : σ → List ℝ → (ℝ × ℝ) × σ) (clock : Nat → ℤ)
    (gate : ℝ) (det : Option PitchDetectorState) (cb : Bool)
    (buffer : List ℝ) (es : σ) (k : Nat)
    (hbig : PITCH_BUFFER_SIZE ≤ buffer.length) :
    ∃ (es2 : σ) (k2 : Nat) (ev : List PitchEvent),
      drainLoop estimate clock gate det cb buffer es k =
        { windows := buffer.take PITCH_BUFFER_SIZE ::
            (drainLoop estimate clock gate det cb (buffer.drop HOP) es2 k2).windows
          events := ev ++
            (drainLoop estimate clock gate det cb (buffer.drop HOP) es2 k2).events
          rest := (drainLoop estimate clock gate det cb (buffer.drop HOP) es2 k2).rest
          estState := (drainLoop estimate clock gate det cb (buffer.drop HOP) es2 k2).estState
          eventCount := (drainLoop estimate clock gate det cb (buffer.drop HOP) es2 k2).eventCount } := by
  rw [drainLoop_step estimate clock gate det cb buffer es k hbig]
  exact ⟨_, _, _, rfl⟩

/-- After the drain loop has analysed at least one window, the residual
buffer still holds at least HOP samples, and its leading HOP samples
are exactly the trailing HOP samples of the last analysed window (the
retained overlap), so at most HOP new samples complete the next
window. -/
theorem drainLoop_last_window_retained {σ : Type}
    (estimate : σ → List ℝ → (ℝ × ℝ) × σ) (clock : Nat → ℤ)
    (gate : ℝ) (det : Option PitchDetectorState) (cb : Bool)
    (buffer : List ℝ) (es : σ) (k : Nat) :
    ((drainLoop estimate clock gate det cb buffer es k).windows ≠ [] →
      HOP ≤ (drainLoop estimate clock gate det cb buffer es k).rest.length)
    ∧ ∀ w ∈ (drainLoop estimate clock gate det cb buffer es k).windows.getLast?,
        (drainLoop estimate clock gate det cb buffer es k).rest.take HOP = w.drop HOP := by
  have main : ∀ (n : Nat) (buffer : List ℝ) (es : σ) (k : Nat), buffer.length ≤ n →
      ((drainLoop estimate clock gate det cb buffer es k).windows ≠ [] →
        HOP ≤ (drainLoop estimate clock gate det cb buffer es k).rest.length)
      ∧ ∀ w ∈ (drainLoop estimate clock gate det cb buffer es k).windows.getLast?,
          (drainLoop estimate clock gate det cb buffer es k).rest.take HOP = w.drop HOP := by
    intro n
    induction n with
    | zero =>
      intro buffer es k hx
      have hsmall : ¬ PITCH_BUFFER_SIZE ≤ buffer.length := by
        have hp : PITCH_BUFFER_SIZE = 2048 := rfl
        omega
      rw [drainLoop_base estimate clock gate det cb buffer es k hsmall]
      simp
    | succ n ih =>
      intro buffer es k hx
      by_cases hbig : PITCH_BUFFER_SIZE ≤ buffer.length
      · have hdroplen : (buffer.drop HOP).length ≤ n := by
          rw [List.length_drop]
          have hp : PITCH_BUFFER_SIZE = 2048 := rfl
          have hh : HOP = 1024 := rfl
          omega
        obtain ⟨es2, k2, ev, heq⟩ :=
          drainLoop_shape estimate clock gate det cb buffer es k hbig
        rw [heq]
        by_cases hbig2 : PITCH_BUFFER_SIZE ≤ (buffer.drop HOP).length
        · have hne := drainLoop_windows_ne_nil estimate clock gate det cb
            (buffer.drop HOP) es2 k2 hbig2
          constructor
          · intro _
            exact (ih (buffer.drop HOP) es2 k2 hdroplen).1 hne
          · intro w hw
            cases hrw : (drainLoop estimate clock gate det cb (buffer.drop HOP) es2 k2).windows with
            | nil => exact absurd hrw hne
            | cons a l =>
              have hw2 : w ∈ (drainLoop estimate clock gate det cb (buffer.drop HOP) es2 k2).windows.getLast? := by
                rw [hrw]
                rw [hrw] at hw
                rw [List.getLast?_cons_cons] at hw
                exact hw
              exact (ih (buffer.drop HOP) es2 k2 hdroplen).2 w hw2
        · have hbase := drainLoop_base estimate clock gate det cb
            (buffer.drop HOP) es2 k2 hbig2
          constructor
          · intro _
            rw [hbase]
            show HOP ≤ (buffer.drop HOP).length
            rw [List.length_drop]
            have hp : PITCH_BUFFER_SIZE = 2048 := rfl
            have hh : HOP = 1024 := rfl
            omega
          · intro w hw
            rw [hbase] at hw ⊢
            simp only [List.getLast?_singleton, Option.mem_def, Option.some.injEq] at hw
            show (buffer.drop HOP).take HOP = w.drop HOP
            rw [← hw]
            exact window_overlap_identity buffer
      · rw [drainLoop_base estimate clock gate det cb buffer es k hbig]
        simp
  exact main buffer.length buffer es k le_rfl

/-- C6: for every capture callback, the sample window is below capacity
again once the call returns (between hops the buffer never retains a
full window), every analysis window holds exactly ANALYSIS_SIZE =
PITCH_BUFFER_SIZE samples, successive windows overlap by exactly HOP
samples (each hop discards HOP samples and retains the trailing HOP of
the analysed window as the next window prefix), and after the last hop
those retained HOP samples sit at the front of the residual buffer and
the buffer holds at least HOP samples, so at most HOP new samples are
required before the next analysis. -/
theorem window_capacity_and_overlap {σ : Type}
    (estimate : σ → List ℝ → (ℝ × ℝ) × σ) (clock : Nat → ℤ)
    (s : AudioEngineState σ) (c : List ℝ) :
    ((onAudioReadyCapture estimate clock s c).1.buffer.length < PITCH_BUFFER_SIZE)
    ∧ (∀ w ∈ (onAudioReadyCapture estimate clock s c).2.windows,
        w.length = PITCH_BUFFER_SIZE)
    ∧ List.Chain' (fun w1 w2 => w2.take HOP = w1.drop HOP)
        (onAudioReadyCapture estimate clock s c).2.windows
    ∧ ((onAudioReadyCapture estimate clock s c).2.windows ≠ [] →
        HOP ≤ (onAudioReadyCapture estimate clock s c).1.buffer.length)
    ∧ ∀ w ∈ (onAudioReadyCapture estimate clock s c).2.windows.getLast?,
        (onAudioReadyCapture estimate clock s c).1.buffer.take HOP = w.drop HOP := by
  refine ⟨?_, ?_, ?_, ?_, ?_⟩
  · exact drainLoop_rest_length_lt estimate clock s.noiseGateThreshold s.detector
      s.callbackSet (s.buffer ++ c) s.estState s.eventCount
  · exact drainLoop_windows_length estimate clock s.noiseGateThreshold s.detector
      s.callbackSet (s.buffer ++ c) s.estState s.eventCount
  · exact drainLoop_windows_chain estimate clock s.noiseGateThreshold s.detector
      s.callbackSet (s.buffer ++ c) s.estState s.eventCount
  · exact (drainLoop_last_window_retained estimate clock s.noiseGateThreshold s.detector
      s.callbackSet (s.buffer ++ c) s.estState s.eventCount).1
  · exact (drainLoop_last_window_retained estimate clock s.noiseGateThreshold s.detector
      s.callbackSet (s.buffer ++ c) s.estState s.eventCount).2

/-- Witness for C6 at a concrete estimator, clock, engine state and
chunk. -/
theorem window_capacity_and_overlap_witness :
    ((onAudioReadyCapture (fun (es : Unit) (_ : List ℝ) => ((0, 0), es)) (fun _ => 0)
        initAudioEngineState []).1.buffer.length < PITCH_BUFFER_SIZE)
    ∧ (∀ w ∈ (onAudioReadyCapture (fun (es : Unit) (_ : List ℝ) => ((0, 0), es)) (fun _ => 0)
        initAudioEngineState []).2.windows, w.length = PITCH_BUFFER_SIZE)
    ∧ List.Chain' (fun w1 w2 => w2.take HOP = w1.drop HOP)
        (onAudioReadyCapture (fun (es : Unit) (_ : List ℝ) => ((0, 0), es)) (fun _ => 0)
          initAudioEngineState []).2.windows
    ∧ ((onAudioReadyCapture (fun (es : Unit) (_ : List ℝ) => ((0, 0), es)) (fun _ => 0)
        initAudioEngineState []).2.windows ≠ [] →
        HOP ≤ (onAudioReadyCapture (fun (es : Unit) (_ : List ℝ) => ((0, 0), es)) (fun _ => 0)
          initAudioEngineState []).1.buffer.length)
    ∧ ∀ w ∈ (onAudioReadyCapture (fun (es : Unit) (_ : List ℝ) => ((0, 0), es)) (fun _ => 0)
        initAudioEngineState []).2.windows.getLast?,
        (onAudioReadyCapture (fun (es : Unit) (_ : List ℝ) => ((0, 0), es)) (fun _ => 0)
          initAudioEngineState []).1.buffer.take HOP = w.drop HOP :=
  window_capacity_and_overlap (fun (es : Unit) (_ : List ℝ) => ((0, 0), es)) (fun _ => 0)
    initAudioEngineState []

end MusicSheetFlow
